import Mathlib

/-!
Verification development for the spacedrive p2p core
(`src/core/src/p2p/mod.rs`): the metadata provider, discovery reactor,
request dispatcher, sync broadcaster and liveness prober wired up in
`P2PManager::new`, together with the wire codec and protocol types they
use.  Rust panics (`unwrap` / `expect`) are modelled explicitly by the
`Outcome` type, fallible calls by `Except`, byte buffers by `List Nat`.
-/

deriving instance DecidableEq for Except

namespace Spacedrive

/-- Result of running a piece of code that may panic (Rust `unwrap` /
`expect`): either a normal value or a panic carrying the panic message.
A panic aborts the enclosing task. -/
inductive Outcome (α : Type) where
  | ok (a : α)
  | panicked (msg : String)
deriving Repr, DecidableEq

/-- Node configuration, as read by `P2PManager::new` (`node_config.get()`,
mod.rs line 37): the fields used there are the display name and the
optional identity keypair.  The keypair itself is opaque here. -/
structure NodeConfig where
  name : String
  keypair : Option Nat
deriving Repr, DecidableEq

/-- Modelled from the spec: the operating-system enum of `PeerMetadata`
(`src/core/src/p2p/peer_metadata.rs` is not under src/; spec section 3:
`os: enum{Windows,Mac,Linux,...}?`). -/
inductive OperatingSystem where
  | Windows
  | Mac
  | Linux
  | Other
deriving Repr, DecidableEq

/-- Modelled from the spec: the identity record advertised to the network
(`src/core/src/p2p/peer_metadata.rs` is not under src/; spec section 3:
`{display_name: string, os: ...?, version: string?}`). -/
structure PeerMetadata where
  name : String
  operating_system : Option OperatingSystem
  version : Option String
deriving Repr, DecidableEq

/-- The metadata-provider closure of `P2PManager::new`
(mod.rs lines 47-53).  It is invoked afresh on every request; `hostOS`
stands for `OperatingSystem::get_os()` and `version` for the compile-time
`env!("CARGO_PKG_VERSION")`.  The captured `config` is the startup
snapshot of line 37; the closure body sets the name to the literal
`"123"` (the `config.name.clone()` read is commented out in the source). -/
def metadataProvider (hostOS : OperatingSystem) (version : String)
    (config : NodeConfig) : PeerMetadata :=
  { name := "123"
    operating_system := some hostOS
    version := some version }

/-- The keypair check at the start of `P2PManager::new`
(mod.rs lines 41-46): `config.keypair.as_ref().expect(...)`. -/
def keypairCheck (config : NodeConfig) : Outcome Nat :=
  match config.keypair with
  | none => .panicked "Keypair not found. This should be unreachable code!"
  | some k => .ok k

/-! ## Wire codec

Modelled from the spec: the codec itself is the external `rmp_serde`
crate, so following spec sections 2 and 6 it is modelled as a
self-describing binary envelope — every payload is the tagged,
length-prefixed encoding of exactly one `Request`, `Response` or
`Operation` value, over bytes represented as `List Nat`. -/

/-- Little-endian base-256 digits, recursing on an explicit fuel bound
so the function is structurally recursive. -/
def natToLEFuel : Nat → Nat → List Nat
  | 0, _ => []
  | fuel + 1, n => if n = 0 then [] else (n % 256) :: natToLEFuel fuel (n / 256)

/-- Little-endian base-256 digits of a natural number (empty for 0). -/
def natToLE (n : Nat) : List Nat := natToLEFuel n n

/-- Reassemble a natural number from little-endian base-256 digits. -/
def natFromLE (ds : List Nat) : Nat :=
  ds.foldr (fun d acc => d + 256 * acc) 0

/-- Length-prefixed encoding of a natural number. -/
def encNat (n : Nat) : List Nat :=
  (natToLE n).length :: natToLE n

/-- Consume one length-prefixed natural number from the front of a
buffer, returning it with the remaining bytes. -/
def decNat : List Nat → Option (Nat × List Nat)
  | [] => none
  | len :: rest =>
      if len ≤ rest.length then
        some (natFromLE (rest.take len), rest.drop len)
      else none

/-- Length-prefixed encoding of a raw byte string. -/
def encBytes (bs : List Nat) : List Nat :=
  bs.length :: bs

/-- Consume one length-prefixed byte string from the front of a buffer. -/
def decBytes : List Nat → Option (List Nat × List Nat)
  | [] => none
  | len :: rest =>
      if len ≤ rest.length then some (rest.take len, rest.drop len)
      else none

theorem natFromLE_natToLEFuel (fuel : Nat) :
    ∀ n, n ≤ fuel → natFromLE (natToLEFuel fuel n) = n := by
  induction fuel with
  | zero =>
    intro n hn
    interval_cases n
    rfl
  | succ fuel ih =>
    intro n hn
    rw [natToLEFuel]
    by_cases h0 : n = 0
    · simp [h0, natFromLE]
    · have hdiv : n / 256 ≤ fuel := by
        have hlt : n / 256 < n := Nat.div_lt_self (Nat.pos_of_ne_zero h0) (by omega)
        omega
      simp only [h0, if_false, natFromLE, List.foldr_cons]
      have := ih (n / 256) hdiv
      simp only [natFromLE] at this
      rw [this, Nat.mod_add_div]

theorem natFromLE_natToLE (n : Nat) : natFromLE (natToLE n) = n :=
  natFromLE_natToLEFuel n n le_rfl

theorem decNat_encNat (n : Nat) (t : List Nat) :
    decNat (encNat n ++ t) = some (n, t) := by
  simp [encNat, decNat, List.take_left, List.drop_left, natFromLE_natToLE]

theorem decBytes_encBytes (bs t : List Nat) :
    decBytes (encBytes bs ++ t) = some (bs, t) := by
  simp [encBytes, decBytes, List.take_left, List.drop_left]

/-! ## Protocol types -/

/-- Modelled from the spec: the `Request` tagged union of
`src/core/src/p2p/proto.rs`, which is not under src/ (spec section 3:
`Ping | GetLibrary(library_id) | <other domain queries>`); library ids
(Uuids) are modelled as naturals. -/
inductive Request where
  | Ping
  | GetLibrary (library_id : Nat)
deriving Repr, DecidableEq

/-- Modelled from the spec: the `Response` tagged union of
`src/core/src/p2p/proto.rs`, which is not under src/ (spec section 3:
`None | Library(...) | <domain payload>`); the library payload is an
opaque byte string. -/
inductive Response where
  | None
  | Library (payload : List Nat)
deriving Repr, DecidableEq

/-- Modelled from the spec: a CRDT change record (`sd_sync::CRDTOperation`
is not under src/; spec section 3: tagged with the originating library
identifier and an actor identifier plus causal metadata). -/
structure Operation where
  library_id : Nat
  actor_id : Nat
  timestamp : Nat
  payload : List Nat
deriving Repr, DecidableEq

/-- Wire encoding of a `Request`: a tag byte followed by the fields. -/
def encodeRequest : Request → List Nat
  | .Ping => [0]
  | .GetLibrary id => 1 :: encNat id

/-- Consume one `Request` from the front of a buffer. -/
def decodeRequestFrom : List Nat → Option (Request × List Nat)
  | 0 :: rest => some (.Ping, rest)
  | 1 :: rest => (decNat rest).map (fun p => (.GetLibrary p.1, p.2))
  | _ => none

/-- Decode a whole buffer as exactly one `Request`; trailing bytes are a
protocol error. -/
def decodeRequest (bs : List Nat) : Option Request :=
  match decodeRequestFrom bs with
  | some (r, []) => some r
  | _ => none

/-- Wire encoding of a `Response`: a tag byte followed by the fields. -/
def encodeResponse : Response → List Nat
  | .None => [0]
  | .Library payload => 1 :: encBytes payload

/-- Consume one `Response` from the front of a buffer. -/
def decodeResponseFrom : List Nat → Option (Response × List Nat)
  | 0 :: rest => some (.None, rest)
  | 1 :: rest => (decBytes rest).map (fun p => (.Library p.1, p.2))
  | _ => none

/-- Decode a whole buffer as exactly one `Response`. -/
def decodeResponse (bs : List Nat) : Option Response :=
  match decodeResponseFrom bs with
  | some (r, []) => some r
  | _ => none

/-- Wire encoding of an `Operation`: the library id, actor id, causal
timestamp and payload in sequence (`rmp_serde::to_vec_named`,
mod.rs line 97). -/
def encodeOperation (op : Operation) : List Nat :=
  encNat op.library_id ++ encNat op.actor_id ++ encNat op.timestamp
    ++ encBytes op.payload

/-- Decode a whole buffer as exactly one `Operation`. -/
def decodeOperation (bs : List Nat) : Option Operation :=
  match decNat bs with
  | none => none
  | some (lib, r1) =>
    match decNat r1 with
    | none => none
    | some (act, r2) =>
      match decNat r2 with
      | none => none
      | some (ts, r3) =>
        match decBytes r3 with
        | some (pl, []) => some ⟨lib, act, ts, pl⟩
        | _ => none

/-! ## The tasks spawned by `P2PManager::new` -/

/-- Modelled from the spec: the `SyncTarget` capability (the
`LibraryManager` handler side of `Request::handle` lives in
`src/core/src/p2p/proto.rs` and the library subsystem, not under src/;
spec section 6: accepts a decoded request and returns a `Response`, and
section 7 allows it to fail with a handler error). -/
structure SyncTarget where
  getLibrary : Nat → Except String Response

/-- Modelled from the spec: `Request::handle` routing
(spec section 4.4: `Ping` answers immediately with `Response::None`; a
data query is forwarded to the library subsystem and awaited). -/
def Request.handle (req : Request) (target : SyncTarget) :
    Except String Response :=
  match req with
  | .Ping => .ok Response.None
  | .GetLibrary id => target.getLibrary id

/-- The inbound-request handler closure of `P2PManager::new`
(mod.rs lines 73-85): decode the payload with `unwrap`, run the handler
with `unwrap`, then return `Ok(vec![])` for `Response::None` and the
encoded response otherwise.  The closure's Rust return type is a
`Result`, modelled by the inner `Except`; both `unwrap`s are panics. -/
def handleRequest (target : SyncTarget) (data : List Nat) :
    Outcome (Except String (List Nat)) :=
  match decodeRequest data with
  | none => .panicked "called Result.unwrap on an Err value: decode"
  | some req =>
    match req.handle target with
    | .error _ => .panicked "called Result.unwrap on an Err value: handler"
    | .ok Response.None => .ok (.ok [])
    | .ok resp => .ok (.ok (encodeResponse resp))

/-- The sync-broadcaster task of `P2PManager::new` (mod.rs lines 90-102):
drain the ingress queue one operation at a time; for each, encode it and
call `manager.broadcast(...)`, panicking (`unwrap`) on a send failure.
Returns the ordered trace of payloads handed to the transport, paired
with the task outcome.  `transport` is the broadcast primitive. -/
def broadcasterRun (transport : List Nat → Except String Unit) :
    List Operation → List (List Nat) × Outcome Unit
  | [] => ([], .ok ())
  | op :: ops =>
    match transport (encodeOperation op) with
    | .error e => ([encodeOperation op], .panicked e)
    | .ok _ =>
      let rest := broadcasterRun transport ops
      (encodeOperation op :: rest.1, rest.2)

/-- The liveness-prober loop of `P2PManager::new` (mod.rs lines 113-121),
run for `n` iterations: each iteration broadcasts the encoding of
`Request::Ping`, panicking (`unwrap`) on a send failure. -/
def proberRun (transport : List Nat → Except String Unit) : Nat → Outcome Unit
  | 0 => .ok ()
  | n + 1 =>
    match transport (encodeRequest .Ping) with
    | .error e => .panicked e
    | .ok _ => proberRun transport n

/-- Modelled from the spec: the transport's broadcast fan-out
(`sd_p2p::Manager::broadcast` is not under src/; spec sections 6 and 8:
best-effort delivery to all connected peers, one independent attempt per
peer).  `sendOk` tells whether the send to a given peer succeeds; the
result lists every attempt with its outcome. -/
def broadcastFanOut (peers : List Nat) (sendOk : Nat → Bool)
    (payload : List Nat) : List (Nat × Bool) :=
  match peers with
  | [] => []
  | p :: ps => (p, sendOk p) :: broadcastFanOut ps sendOk payload

/-- A transport discovery event (spec section 6: `PeerDiscovered` plus
other variants, here collapsed into `Other`). -/
inductive TransportEvent where
  | PeerDiscovered (peer : Nat) (addresses : List String)
  | Other (desc : String)
deriving Repr, DecidableEq

/-- The dial attempts emitted while handling one event in the discovery
closure of `P2PManager::new` (mod.rs lines 54-70): a `PeerDiscovered`
event is printed and then dialed unconditionally; any other event is
only printed. -/
def eventDials : TransportEvent → List Nat
  | .PeerDiscovered p _ => [p]
  | .Other _ => []

/-- The discovery reactor run over a sequence of events: each event is
handled independently (the closure keeps no state between events), and
the dial result is discarded (`event.dial(&manager).await;`), so a dial
failure never panics the reactor.  `dialOk` tells whether dialing a
given peer succeeds. -/
def discoveryRun (dialOk : Nat → Bool) :
    List TransportEvent → List Nat × Outcome Unit
  | [] => ([], .ok ())
  | e :: es =>
    let rest := discoveryRun dialOk es
    (eventDials e ++ rest.1, rest.2)

/-- The payload returned to the transport for a given handler response
(mod.rs lines 80-81): `Response::None` maps to the empty vector, any
other response to its wire encoding. -/
def responsePayload : Response → List Nat
  | .None => []
  | resp => encodeResponse resp

/-! ## Concrete instances used as test inputs -/

/-- A sync target whose queries all succeed with a fixed library payload. -/
def okTarget : SyncTarget := ⟨fun _ => .ok (.Library [7])⟩

/-- A sync target whose queries all fail with a handler error. -/
def failingTarget : SyncTarget := ⟨fun _ => .error "library not found"⟩

/-- A sync target returning a payload derived from the queried id. -/
def libraryTarget : SyncTarget := ⟨fun id => .ok (.Library [id % 256])⟩

/-- Sample CRDT operations. -/
def sampleOp : Operation := ⟨1, 2, 3, [4, 5]⟩

def sampleOp2 : Operation := ⟨6, 7, 8, [9]⟩

def sampleOp3 : Operation := ⟨10, 11, 12, []⟩

/-- A transport whose broadcasts all succeed. -/
def okTransport : List Nat → Except String Unit := fun _ => .ok ()

/-- A transport whose broadcasts all fail. -/
def failingTransport : List Nat → Except String Unit := fun _ => .error "send failed"

/-- A transport that fails exactly on the encoding of `sampleOp2`. -/
def flakyTransport : List Nat → Except String Unit := fun bs =>
  if bs = encodeOperation sampleOp2 then .error "send failed" else .ok ()

/-! ## Codec round-trip lemmas -/

theorem decodeRequestFrom_enc (r : Request) (t : List Nat) :
    decodeRequestFrom (encodeRequest r ++ t) = some (r, t) := by
  cases r with
  | Ping => rfl
  | GetLibrary id => simp [encodeRequest, decodeRequestFrom, decNat_encNat]

theorem decodeRequest_enc (r : Request) :
    decodeRequest (encodeRequest r) = some r := by
  have h := decodeRequestFrom_enc r []
  rw [List.append_nil] at h
  simp [decodeRequest, h]

theorem decodeResponseFrom_enc (s : Response) (t : List Nat) :
    decodeResponseFrom (encodeResponse s ++ t) = some (s, t) := by
  cases s with
  | None => rfl
  | Library p => simp [encodeResponse, decodeResponseFrom, decBytes_encBytes]

theorem decodeResponse_enc (s : Response) :
    decodeResponse (encodeResponse s) = some s := by
  have h := decodeResponseFrom_enc s []
  rw [List.append_nil] at h
  simp [decodeResponse, h]

theorem decodeOperation_enc (op : Operation) :
    decodeOperation (encodeOperation op) = some op := by
  obtain ⟨lib, act, ts, pl⟩ := op
  have h := decBytes_encBytes pl []
  rw [List.append_nil] at h
  simp [encodeOperation, decodeOperation, List.append_assoc, decNat_encNat, h]

/-! ## Claims -/

/-- C1 (counterexample): on the concrete undecodable payload `[]` the
request handler closure panics instead of returning a typed
`DecodeError` result. -/
theorem c1_claim_counterexample :
    handleRequest okTarget [] =
      Outcome.panicked "called Result.unwrap on an Err value: decode" := by
  decide

/-- C1 (amended): on a payload that does not decode to a `Request`, the
request handler closure panics on the `unwrap` of the decode result,
aborting the handling task; it never returns a typed error value for
any input. -/
theorem c1_decode_failure_panics (target : SyncTarget) (data : List Nat) :
    (decodeRequest data = none →
        handleRequest target data =
          Outcome.panicked "called Result.unwrap on an Err value: decode") ∧
    (∀ e, handleRequest target data ≠ Outcome.ok (Except.error e)) := by
  constructor
  · intro h
    simp [handleRequest, h]
  · intro e
    unfold handleRequest
    cases hd : decodeRequest data with
    | none => simp
    | some req =>
      cases hh : req.handle target with
      | error err => simp [hh]
      | ok resp => cases resp <;> simp [hh]

/-- C1 (witness): the amended claim instantiated at the undecodable
payload `[255]`. -/
theorem c1_witness :
    handleRequest okTarget [255] =
      Outcome.panicked "called Result.unwrap on an Err value: decode" ∧
    handleRequest okTarget [255] ≠ Outcome.ok (Except.error "boom") :=
  ⟨(c1_decode_failure_panics okTarget [255]).1 (by decide),
   (c1_decode_failure_panics okTarget [255]).2 "boom"⟩

/-- C2 (counterexample): with a transport whose sends fail, a single
queued operation panics the sync-broadcaster task, and the first
heartbeat iteration panics the liveness-prober task; the failures are
not dropped. -/
theorem c2_claim_counterexample :
    (broadcasterRun failingTransport [sampleOp]).2 = Outcome.panicked "send failed" ∧
    proberRun failingTransport 1 = Outcome.panicked "send failed" := by
  decide

/-- C2 (amended): a transport-level send failure is not logged and
dropped: in the sync-broadcaster loop the first failed broadcast panics
(`unwrap`), terminating the enclosing task (no further operation is
dequeued), and in the liveness-prober loop a failed heartbeat broadcast
likewise panics the enclosing task. -/
theorem c2_send_failure_panics :
    (∀ (transport : List Nat → Except String Unit) (pre post : List Operation)
        (op : Operation) (e : String),
        (∀ p ∈ pre, transport (encodeOperation p) = Except.ok ()) →
        transport (encodeOperation op) = Except.error e →
        (broadcasterRun transport (pre ++ op :: post)).2 = Outcome.panicked e) ∧
    (∀ (transport : List Nat → Except String Unit) (n : Nat) (e : String),
        transport (encodeRequest .Ping) = Except.error e →
        proberRun transport (n + 1) = Outcome.panicked e) := by
  constructor
  · intro transport pre post op e
    induction pre with
    | nil =>
      intro _ hop
      simp [broadcasterRun, hop]
    | cons p ps ih =>
      intro hpre hop
      have hp : transport (encodeOperation p) = Except.ok () := hpre p (by simp)
      have hrest := ih (fun q hq => hpre q (by simp [hq])) hop
      simp [broadcasterRun, hp, hrest]
  · intro transport n e h
    simp [proberRun, h]

/-- C2 (witness): the amended claim instantiated at a transport that
fails exactly on `sampleOp2` (so the preceding `sampleOp` broadcast
succeeds) and at the always-failing transport for the prober. -/
theorem c2_witness :
    (broadcasterRun flakyTransport [sampleOp, sampleOp2]).2 = Outcome.panicked "send failed" ∧
    proberRun failingTransport 1 = Outcome.panicked "send failed" :=
  ⟨c2_send_failure_panics.1 flakyTransport [sampleOp] [] sampleOp2 "send failed"
      (by intro p hp; simp at hp; subst hp; decide) (by decide),
   c2_send_failure_panics.2 failingTransport 0 "send failed" rfl⟩

/-- C3 (counterexample): the request `GetLibrary 0` decodes successfully,
but against a sync target whose handler fails, the dispatcher panics
instead of producing a typed error response or a logged stream close. -/
theorem c3_claim_counterexample :
    decodeRequest (encodeRequest (Request.GetLibrary 0)) = some (Request.GetLibrary 0) ∧
    handleRequest failingTarget (encodeRequest (Request.GetLibrary 0)) =
      Outcome.panicked "called Result.unwrap on an Err value: handler" := by
  decide

/-- C3 (amended): for every successfully decoded `Request` whose handler
fails against the sync target, the dispatcher panics on the `unwrap` of
the handler result, aborting the dispatcher task; the error is neither
converted to a typed error response nor logged with a stream close. -/
theorem c3_handler_failure_panics (target : SyncTarget) (data : List Nat)
    (req : Request) (e : String) :
    decodeRequest data = some req →
    req.handle target = Except.error e →
    handleRequest target data =
      Outcome.panicked "called Result.unwrap on an Err value: handler" := by
  intro hdec hh
  simp [handleRequest, hdec, hh]

/-- C3 (witness): the amended claim instantiated at `GetLibrary 5` and
the failing sync target. -/
theorem c3_witness :
    handleRequest failingTarget (encodeRequest (Request.GetLibrary 5)) =
      Outcome.panicked "called Result.unwrap on an Err value: handler" :=
  c3_handler_failure_panics failingTarget (encodeRequest (Request.GetLibrary 5))
    (Request.GetLibrary 5) "library not found" (by decide) rfl

/-- C4 (counterexample): the request `GetLibrary 1` decodes successfully,
yet against a sync target whose handler fails the dispatcher panics and
produces no `Response` payload at all on the stream. -/
theorem c4_claim_counterexample :
    decodeRequest (encodeRequest (Request.GetLibrary 1)) = some (Request.GetLibrary 1) ∧
    handleRequest failingTarget (encodeRequest (Request.GetLibrary 1)) =
      Outcome.panicked "called Result.unwrap on an Err value: handler" := by
  decide

/-- C4 (amended): for every successfully decoded `Request` whose handler
succeeds, the dispatcher produces exactly one `Response` payload:
`Response::None` (in particular the answer to `Ping`) maps to the empty
byte sequence, and every other `Response` variant to its non-empty wire
encoding.  When the handler fails the dispatcher panics and produces no
payload. -/
theorem c4_response_payload (target : SyncTarget) (data : List Nat) :
    (∀ req resp, decodeRequest data = some req →
        req.handle target = Except.ok resp →
        handleRequest target data = Outcome.ok (Except.ok (responsePayload resp))) ∧
    responsePayload Response.None = [] ∧
    (∀ resp, resp ≠ Response.None →
        responsePayload resp = encodeResponse resp ∧ encodeResponse resp ≠ []) ∧
    (decodeRequest data = some Request.Ping →
        handleRequest target data = Outcome.ok (Except.ok [])) := by
  refine ⟨?_, rfl, ?_, ?_⟩
  · intro req resp hdec hh
    cases resp <;> simp [handleRequest, hdec, hh, responsePayload]
  · intro resp h
    cases resp with
    | None => exact absurd rfl h
    | Library p => exact ⟨rfl, by simp [encodeResponse]⟩
  · intro h
    simp [handleRequest, h, Request.handle]

/-- C4 (witness): the amended claim instantiated at `GetLibrary 2`
against a succeeding sync target, and at `Ping`. -/
theorem c4_witness :
    handleRequest libraryTarget (encodeRequest (Request.GetLibrary 2)) =
      Outcome.ok (Except.ok (responsePayload (Response.Library [2]))) ∧
    responsePayload (Response.Library [2]) = encodeResponse (Response.Library [2]) ∧
    encodeResponse (Response.Library [2]) ≠ [] ∧
    handleRequest libraryTarget (encodeRequest Request.Ping) =
      Outcome.ok (Except.ok []) := by
  refine ⟨?_, ?_, ?_, ?_⟩
  · exact (c4_response_payload libraryTarget (encodeRequest (Request.GetLibrary 2))).1
      (Request.GetLibrary 2) (Response.Library [2]) (by decide) rfl
  · exact ((c4_response_payload libraryTarget (encodeRequest (Request.GetLibrary 2))).2.2.1
      (Response.Library [2]) (by decide)).1
  · exact ((c4_response_payload libraryTarget (encodeRequest (Request.GetLibrary 2))).2.2.1
      (Response.Library [2]) (by decide)).2
  · exact (c4_response_payload libraryTarget (encodeRequest Request.Ping)).2.2.2 (by decide)

/-- C5 (counterexample): with the configured display name `"alice"`, the
metadata provider still reports the hard-coded name `"123"`, so the
record does not reflect the current configuration. -/
theorem c5_claim_counterexample :
    (metadataProvider OperatingSystem.Linux "0.1.0"
        { name := "alice", keypair := none }).name ≠ "alice" := by
  decide

/-- C5 (amended): the metadata provider regenerates a fresh
`PeerMetadata` on every invocation, but its display name is the
hard-coded constant `"123"` rather than the configured name — the
result is entirely independent of the (startup-snapshot) configuration;
only the operating system and compile-time version are reported. -/
theorem c5_metadata_constant (os : OperatingSystem) (version : String)
    (c₁ c₂ : NodeConfig) :
    metadataProvider os version c₁ = metadataProvider os version c₂ ∧
    metadataProvider os version c₁ =
      { name := "123", operating_system := some os, version := some version } :=
  ⟨rfl, rfl⟩

/-- C6: operations drained from the ingress queue are broadcast one at a
time in exactly their enqueue order — when every send succeeds, the
trace of transport calls is the in-order encoding of the queue. -/
theorem c6_order_preserved (transport : List Nat → Except String Unit)
    (ops : List Operation)
    (h : ∀ op ∈ ops, transport (encodeOperation op) = Except.ok ()) :
    (broadcasterRun transport ops).1 = ops.map encodeOperation := by
  induction ops with
  | nil => rfl
  | cons op rest ih =>
    have hop : transport (encodeOperation op) = Except.ok () := h op (by simp)
    have hrest := ih (fun q hq => h q (by simp [hq]))
    simp [broadcasterRun, hop, hrest]

/-- C6 (witness): three sample operations broadcast over an
always-succeeding transport come out in enqueue order. -/
theorem c6_witness :
    (broadcasterRun okTransport [sampleOp, sampleOp2, sampleOp3]).1 =
      [sampleOp, sampleOp2, sampleOp3].map encodeOperation :=
  c6_order_preserved okTransport [sampleOp, sampleOp2, sampleOp3]
    (fun _ _ => rfl)

/-- C7: (i) the broadcaster's trace of transport calls is an in-order
prefix of the per-operation encodings — exactly one `broadcast` call per
dequeued operation, with no filtering by the operation's library; (ii)
even an operation whose own broadcast fails still gets exactly one call;
(iii) the transport fan-out attempts delivery to every connected peer —
the attempted-peer list is independent of which sends fail, and each
peer's attempt carries its own outcome. -/
theorem c7_broadcast_unscoped :
    (∀ (transport : List Nat → Except String Unit) (ops : List Operation),
        ∃ k, (broadcasterRun transport ops).1 = (ops.map encodeOperation).take k) ∧
    (∀ (transport : List Nat → Except String Unit) (op : Operation)
        (ops : List Operation) (e : String),
        transport (encodeOperation op) = Except.error e →
        (broadcasterRun transport (op :: ops)).1 = [encodeOperation op]) ∧
    (∀ (peers : List Nat) (sendOk : Nat → Bool) (payload : List Nat),
        (broadcastFanOut peers sendOk payload).map Prod.fst = peers ∧
        ∀ p ∈ peers, (p, sendOk p) ∈ broadcastFanOut peers sendOk payload) := by
  refine ⟨?_, ?_, ?_⟩
  · intro transport ops
    induction ops with
    | nil => exact ⟨0, rfl⟩
    | cons op rest ih =>
      cases hop : transport (encodeOperation op) with
      | error e => exact ⟨1, by simp [broadcasterRun, hop]⟩
      | ok u =>
        obtain ⟨k, hk⟩ := ih
        exact ⟨k + 1, by simp [broadcasterRun, hop, hk]⟩
  · intro transport op ops e hop
    simp [broadcasterRun, hop]
  · intro peers sendOk payload
    induction peers with
    | nil => exact ⟨rfl, by simp⟩
    | cons p ps ih =>
      refine ⟨by simp [broadcastFanOut, ih.1], ?_⟩
      intro q hq
      rcases List.mem_cons.mp hq with h | h
      · subst h
        simp [broadcastFanOut]
      · exact List.mem_cons_of_mem _ (ih.2 q h)

/-- C7 (witness): instantiated at a failing transport with one queued
operation, and at two peers of which the first send fails while the
second is still attempted. -/
theorem c7_witness :
    (∃ k, (broadcasterRun failingTransport [sampleOp]).1 =
        ([sampleOp].map encodeOperation).take k) ∧
    (broadcasterRun failingTransport [sampleOp]).1 = [encodeOperation sampleOp] ∧
    (broadcastFanOut [1, 2] (fun p => p != 1) []).map Prod.fst = [1, 2] ∧
    (2, (fun p => p != 1) 2) ∈ broadcastFanOut [1, 2] (fun p => p != 1) [] :=
  ⟨c7_broadcast_unscoped.1 failingTransport [sampleOp],
   c7_broadcast_unscoped.2.1 failingTransport sampleOp [] "send failed" rfl,
   (c7_broadcast_unscoped.2.2 [1, 2] (fun p => p != 1) []).1,
   (c7_broadcast_unscoped.2.2 [1, 2] (fun p => p != 1) []).2 2 (by decide)⟩

/-- C8: the wire codec round-trips every `Request`, `Response` and
`Operation` value: `decode (encode x) = x`. -/
theorem c8_roundtrip (r : Request) (s : Response) (op : Operation) :
    decodeRequest (encodeRequest r) = some r ∧
    decodeResponse (encodeResponse s) = some s ∧
    decodeOperation (encodeOperation op) = some op :=
  ⟨decodeRequest_enc r, decodeResponse_enc s, decodeOperation_enc op⟩

/-- C9: the discovery reactor never terminates on a dial failure (its
outcome is `ok` for every dial-success assignment), and it emits exactly
one dial attempt per `PeerDiscovered` event — unconditionally and
statelessly, so repeats of the same peer are dialed again — and none for
other events. -/
theorem c9_discovery_dials (dialOk : Nat → Bool) (events : List TransportEvent) :
    (discoveryRun dialOk events).2 = Outcome.ok () ∧
    (discoveryRun dialOk events).1 = events.flatMap eventDials ∧
    (∀ p a, eventDials (TransportEvent.PeerDiscovered p a) = [p]) ∧
    (∀ d, eventDials (TransportEvent.Other d) = []) := by
  refine ⟨?_, ?_, fun _ _ => rfl, fun _ => rfl⟩
  · induction events with
    | nil => rfl
    | cons e es ih => simp [discoveryRun, ih]
  · induction events with
    | nil => rfl
    | cons e es ih => simp [discoveryRun, ih]

/-- C10: `P2PManager::new` panics exactly when the loaded configuration
has no keypair: the `expect` on `config.keypair` panics with the source
message when the keypair is `None`, and yields the keypair (so
construction proceeds past it) when one is present. -/
theorem c10_keypair_expect (config : NodeConfig) :
    (config.keypair = none →
        keypairCheck config =
          Outcome.panicked "Keypair not found. This should be unreachable code!") ∧
    (∀ k, config.keypair = some k → keypairCheck config = Outcome.ok k) := by
  constructor
  · intro h
    simp [keypairCheck, h]
  · intro k hk
    simp [keypairCheck, hk]

/-- C10 (witness): instantiated at a configuration without a keypair and
one with keypair `7`. -/
theorem c10_witness :
    keypairCheck { name := "node", keypair := none } =
      Outcome.panicked "Keypair not found. This should be unreachable code!" ∧
    keypairCheck { name := "node", keypair := some 7 } = Outcome.ok 7 :=
  ⟨(c10_keypair_expect { name := "node", keypair := none }).1 rfl,
   (c10_keypair_expect { name := "node", keypair := some 7 }).2 7 rfl⟩

end Spacedrive
